import Mathlib

/-!
Verification of the HealthAssist classification core (`healthassit.py`).

The Python module is a single-file Streamlit dashboard whose decision logic
is a set of pure functions: BMI calculation and banding, blood-pressure
staging, glucose interpretation, CBC and lipid flagging, exercise
recommendation lists, an emergency aggregation pass, and a best-effort
norms fetch with fallback.  Each Python function is embedded below as a
computable Lean function: floats become `ℚ`, ints become `ℤ`, Python
strings become `String`, Python substring/prefix tests become explicit
structurally recursive functions over `List Char`, and the one
I/O-performing function (`fetch_medical_norms`) is embedded as a pure
function of an explicit fetch-outcome value that enumerates the possible
behaviours of its `try` block.
-/

/-- Python list/prefix helper: `pat` occurs as a contiguous sublist of the
text, i.e. the `in` operator on strings, expressed on character lists. -/
def charListContains (pat : List Char) : List Char → Bool
  | [] => pat.isEmpty
  | c :: rest => pat.isPrefixOf (c :: rest) || charListContains pat rest

/-- Python `pat in s` (substring containment). -/
def strContains (s pat : String) : Bool :=
  charListContains pat.toList s.toList

/-- Python `str.strip()`: drop whitespace from both ends. -/
def pyStrip (cs : List Char) : List Char :=
  ((cs.dropWhile Char.isWhitespace).reverse.dropWhile Char.isWhitespace).reverse

/-- Python `str.lower()`, character-wise. -/
def pyLower (cs : List Char) : List Char :=
  cs.map Char.toLower

/-- BMI thresholds of the norms table (source: `DEFAULT_NORMS["bmi"]`). -/
structure BmiNorms where
  underweight : ℚ
  normal_upper : ℚ
  overweight : ℚ
  obesity : ℚ

/-- Blood-pressure (systolic, diastolic) threshold pairs
(source: `DEFAULT_NORMS["bp"]`). -/
structure BpNorms where
  normal : ℤ × ℤ
  elevated : ℤ × ℤ
  stage_1 : ℤ × ℤ
  stage_2 : ℤ × ℤ
  crisis : ℤ × ℤ

/-- Glucose thresholds (source: `DEFAULT_NORMS["glucose"]`). -/
structure GlucoseNorms where
  normal_fasting_upper : ℚ
  impaired_fasting_lower : ℚ
  diabetes_fasting : ℚ
  hypoglycemia : ℚ
  severe_hypoglycemia : ℚ

/-- Lipid thresholds (source: `DEFAULT_NORMS["lipids"]`). -/
structure LipidNorms where
  total_high : ℚ
  ldl_optimal : ℚ
  ldl_high : ℚ
  hdl_low : ℚ
  trig_high : ℚ

/-- The nested norms table handed to every classifier. -/
structure Norms where
  bmi : BmiNorms
  bp : BpNorms
  glucose : GlucoseNorms
  lipids : LipidNorms

/-- The embedded default norms table (source: `DEFAULT_NORMS`, lines 29-52). -/
def DEFAULT_NORMS : Norms :=
  { bmi := { underweight := 18.5, normal_upper := 24.9, overweight := 29.9,
             obesity := 30.0 }
    bp := { normal := (120, 80), elevated := (120, 80), stage_1 := (130, 80),
            stage_2 := (140, 90), crisis := (180, 120) }
    glucose := { normal_fasting_upper := 99, impaired_fasting_lower := 100,
                 diabetes_fasting := 126, hypoglycemia := 70,
                 severe_hypoglycemia := 54 }
    lipids := { total_high := 240, ldl_optimal := 100, ldl_high := 160,
                hdl_low := 40, trig_high := 200 } }

/-- Source: `calculate_bmi` (lines 75-78). -/
def calculate_bmi (weight_kg height_cm : ℚ) : ℚ :=
  if height_cm ≤ 0 then 0
  else weight_kg / ((height_cm / 100) ^ 2)

/-- Source: `bmi_category` (lines 80-87). -/
def bmi_category (bmi : ℚ) (norms : Norms) : String :=
  if bmi < norms.bmi.underweight then "Underweight"
  else if bmi ≤ norms.bmi.normal_upper then "Normal weight"
  else if bmi ≤ norms.bmi.overweight then "Overweight"
  else "Obesity"

/-- Source: `classify_bp` (lines 89-99). -/
def classify_bp (systolic diastolic : ℤ) (norms : Norms) : String :=
  if systolic ≥ norms.bp.crisis.1 ∨ diastolic ≥ norms.bp.crisis.2 then
    "Hypertensive crisis"
  else if systolic ≥ norms.bp.stage_2.1 ∨ diastolic ≥ norms.bp.stage_2.2 then
    "Stage 2 Hypertension"
  else if systolic ≥ norms.bp.stage_1.1 ∨ diastolic ≥ norms.bp.stage_1.2 then
    "Stage 1 Hypertension"
  else if systolic ≥ norms.bp.elevated.1 ∧ diastolic < norms.bp.elevated.2 then
    "Elevated blood pressure"
  else "Normal"

/-- Source: `interpret_glucose` (lines 101-123).  Python's
`(context or "").strip().lower().startswith("fast")` becomes a prefix test
on the stripped, lowercased character list of the context. -/
def interpret_glucose (glucose_mg_dL : ℚ) (context : String) (norms : Norms) :
    String :=
  let g := glucose_mg_dL
  if "fast".toList.isPrefixOf (pyLower (pyStrip context.toList)) then
    if g < norms.glucose.severe_hypoglycemia then "Severe hypoglycemia"
    else if g < norms.glucose.hypoglycemia then "Low (hypoglycemia)"
    else if g ≤ norms.glucose.normal_fasting_upper then "Normal fasting"
    else if g < norms.glucose.diabetes_fasting then
      "Impaired fasting (prediabetes)"
    else "Diabetes-range fasting"
  else
    if g < 54 then "Severe hypoglycemia"
    else if g < 70 then "Low (hypoglycemia)"
    else if g < 140 then "Normal (post-meal)"
    else if g < 200 then "High (post-meal) — consider fasting test"
    else "Very high (post-meal) — diabetes likely"

/-- Source: `cbc_flags` (lines 125-143).  The Python function appends to an
accumulator list in source order; this is rendered as the concatenation of
the three per-measurement contributions in that order. -/
def cbc_flags (hemoglobin wbc platelets : ℚ) : List String :=
  (if hemoglobin < 8 then
    ["Severely low hemoglobin — urgent evaluation needed"]
   else if hemoglobin < 12 then
    ["Low hemoglobin — possible anemia; consider iron studies"]
   else []) ++
  (if wbc < 2 then
    ["Severely low WBC — urgent evaluation needed"]
   else if wbc < 4 then
    ["Low WBC — infection risk"]
   else if wbc > 11 then
    ["Elevated WBC — possible infection/inflammation; correlate clinically"]
   else []) ++
  (if platelets < 50 then
    ["Very low platelets — urgent evaluation"]
   else if platelets < 150 then
    ["Low platelets — bleeding risk"]
   else if platelets > 450 then
    ["High platelets — reactive thrombocytosis or myeloproliferative process"]
   else [])

/-- Source: `interpret_lipids` (lines 145-157), again rendered as the
concatenation of the four sequential append sites. -/
def interpret_lipids (total ldl hdl trig : ℚ) (norms : Norms) : List String :=
  (if total ≥ norms.lipids.total_high then
    ["Total cholesterol high — repeat fasting lipid profile, consult doctor"]
   else []) ++
  (if ldl ≥ norms.lipids.ldl_high then
    ["LDL high — strong risk factor for heart disease; discuss statin therapy"]
   else if ldl ≥ norms.lipids.ldl_optimal then
    ["LDL borderline — lifestyle changes recommended"]
   else []) ++
  (if hdl < norms.lipids.hdl_low then
    ["HDL low — increases cardiovascular risk; increase physical activity"]
   else []) ++
  (if trig ≥ norms.lipids.trig_high then
    ["Triglycerides high — reduce sugars, alcohol; recheck fasting panel"]
   else [])

/-- Source: `recommend_exercise_advanced` (lines 193-217). -/
def recommend_exercise_advanced (age : ℤ) (bmi_cat bp_class glucose_interp :
    String) : List String :=
  if strContains bp_class "Hypertensive crisis" then
    ["🚨 Emergency BP: get urgent medical review before starting/exercising."]
  else
    let recs : List String :=
      ["Aerobic target: work up to 150–300 min/week moderate-intensity or 75–150 min vigorous-intensity (per WHO).",
       "Strength training: 2–3 sessions/week, full-body compound exercises (progressive overload)."]
    let recs :=
      if bmi_cat = "Overweight" ∨ bmi_cat = "Obesity" then
        "Start with low-impact cardio (walking, cycling, swimming) 3×/week, 20–30 min; increase duration before intensity." :: recs
      else recs
    let recs :=
      if strContains glucose_interp "Diabetes" || strContains glucose_interp "Impaired" then
        recs ++ ["Post-meal walks (10–15 min) can help blunt glucose spikes; monitor pre/post exercise glucose if on medications."]
      else recs
    recs ++
      ["4-week starter: Week1 walk 20 min ×3; Week2 add 2× strength (bodyweight); Week3 increase walk to 30 min and add interval sessions; Week4 add heavier resistance.",
       "Monitor symptoms: chest pain, severe breathlessness, dizziness — stop and seek care. Reassess BP/glucose after beginning program."]

/-- Severity keywords scanned over lowercased flag text
(source: `run_streamlit_app`, line 403). -/
def EMERGENCY_KEYWORDS : List String := ["severe", "urgent", "very low", "very high"]

/-- Python `any(k in f.lower() for k in ("severe", "urgent", "very low",
"very high"))` (source: line 403). -/
def flagTriggers (f : String) : Bool :=
  EMERGENCY_KEYWORDS.any (fun k => charListContains k.toList (pyLower f.toList))

/-- The `for f in cbc + lipids:` loop of the emergency determination
(source: lines 402-405), threading the `needs_emergency` boolean and the
`emergency_reasons` accumulator. -/
def emergencyScan : List String → Bool → List String → Bool × List String
  | [], needs, reasons => (needs, reasons)
  | f :: rest, needs, reasons =>
    if flagTriggers f then emergencyScan rest true (reasons ++ [f])
    else emergencyScan rest needs reasons

/-- Fixed reason appended on a hypertensive-crisis BP classification
(source: line 398). -/
def BP_CRISIS_REASON : String := "Very high blood pressure — hypertensive crisis"

/-- Fixed reason appended when the glucose interpretation contains
"Severe" (source: line 401). -/
def GLUCOSE_SEVERE_REASON : String := "Severe hypoglycemia or very low glucose"

/-- The emergency determination block of `run_streamlit_app`
(source: lines 394-405): BP equality check, glucose substring check, then
the keyword scan over the combined CBC and lipid flag list. -/
def emergencyDetermination (bp_class glucose_interp : String)
    (flags : List String) : Bool × List String :=
  let s1 : Bool × List String :=
    if bp_class = "Hypertensive crisis" then (true, [BP_CRISIS_REASON])
    else (false, [])
  let s2 : Bool × List String :=
    if strContains glucose_interp "Severe" then (true, s1.2 ++ [GLUCOSE_SEVERE_REASON])
    else s1
  emergencyScan flags s2.1 s2.2

/-- The immutable input record of one evaluation (the form values read in
`run_streamlit_app`, lines 328-374). -/
structure MeasurementSet where
  age : ℤ
  sex : String
  height_cm : ℚ
  weight_kg : ℚ
  systolic : ℤ
  diastolic : ℤ
  glucose : ℚ
  context : String
  hemoglobin : ℚ
  wbc : ℚ
  platelets : ℚ
  total : ℚ
  ldl : ℚ
  hdl : ℚ
  trig : ℚ

/-- The emergency determination as computed for a full measurement set
(source: lines 384-405: classifier calls followed by the emergency block). -/
def emergencyOf (m : MeasurementSet) (norms : Norms) : Bool × List String :=
  let bp_class := classify_bp m.systolic m.diastolic norms
  let glucose_interp := interpret_glucose m.glucose m.context norms
  let cbc := cbc_flags m.hemoglobin m.wbc m.platelets
  let lipids := interpret_lipids m.total m.ldl m.hdl m.trig norms
  emergencyDetermination bp_class glucose_interp (cbc ++ lipids)

/-!
Model of the optional remote norms fetch.  `fetch_medical_norms`
(source lines 55-72) performs network I/O inside a `try` block; the
embedding makes the outside world explicit as a `FetchOutcome` value.  A
raised exception anywhere in the `try` block (network failure or timeout
from `requests.get`, and a body that `resp.json()` cannot parse is
`resp 200 none`) is absorbed by the bare `except` and can never propagate
to the caller — correspondingly the Lean embedding is a total function.
-/

/-- A JSON-like payload value, as produced by `resp.json()`. -/
inductive JVal where
  | null
  | num (q : ℚ)
  | str (s : String)
  | arr (xs : List JVal)
  | obj (fields : List (String × JVal))

/-- Python `"k" in data` for a JSON payload: key membership for a dict,
element equality for a list, substring for a string; on any other value
Python raises `TypeError`, which the surrounding `except` absorbs into the
default-returning path, so those cases are rendered as `false`. -/
def hasKey (j : JVal) (k : String) : Bool :=
  match j with
  | .obj fields => fields.any (fun kv => kv.1 = k)
  | .arr xs => xs.any (fun v => match v with | .str s => s = k | _ => false)
  | .str s => strContains s k
  | _ => false

/-- The embedded default table as the JSON-like value the fetch falls back
to (source: `DEFAULT_NORMS`, lines 29-52; tuples rendered as arrays). -/
def DEFAULT_NORMS_json : JVal :=
  .obj [
    ("bmi", .obj [("underweight", .num 18.5), ("normal_upper", .num 24.9),
                  ("overweight", .num 29.9), ("obesity", .num 30.0)]),
    ("bp", .obj [("normal", .arr [.num 120, .num 80]),
                 ("elevated", .arr [.num 120, .num 80]),
                 ("stage_1", .arr [.num 130, .num 80]),
                 ("stage_2", .arr [.num 140, .num 90]),
                 ("crisis", .arr [.num 180, .num 120])]),
    ("glucose", .obj [("normal_fasting_upper", .num 99),
                      ("impaired_fasting_lower", .num 100),
                      ("diabetes_fasting", .num 126),
                      ("hypoglycemia", .num 70),
                      ("severe_hypoglycemia", .num 54)]),
    ("lipids", .obj [("total_high", .num 240), ("ldl_optimal", .num 100),
                     ("ldl_high", .num 160), ("hdl_low", .num 40),
                     ("trig_high", .num 200)])]

/-- The possible outcomes of the remote request in `fetch_medical_norms`:
an exception from `requests.get` (network failure or timeout), or a
response with a status code and a body (`none` when `resp.json()` raises
on a malformed payload). -/
inductive FetchOutcome where
  | netFailure
  | timeout
  | resp (status : ℕ) (body : Option JVal)

/-- Source: `fetch_medical_norms` (lines 55-72), as a pure function of the
explicit fetch outcome. -/
def fetch_medical_norms (outcome : FetchOutcome) : JVal :=
  match outcome with
  | .netFailure => DEFAULT_NORMS_json
  | .timeout => DEFAULT_NORMS_json
  | .resp status body =>
    if status = 200 then
      match body with
      | none => DEFAULT_NORMS_json
      | some data =>
        if hasKey data "bmi" && hasKey data "bp" then data
        else DEFAULT_NORMS_json
    else DEFAULT_NORMS_json

/-!
Specification-side definitions.  The following definitions transcribe the
wording of the specification (its cascade listings and per-measurement
check descriptions) so that refinement claims can compare them with the
source-derived functions above.
-/

/-- Modelled from the spec wording of §4.3: the five blood-pressure rules
as an ordered first-match cascade. -/
def classify_bp_spec (systolic diastolic : ℤ) (norms : Norms) : String :=
  if systolic ≥ norms.bp.crisis.1 ∨ diastolic ≥ norms.bp.crisis.2 then
    "Hypertensive crisis"
  else if systolic ≥ norms.bp.stage_2.1 ∨ diastolic ≥ norms.bp.stage_2.2 then
    "Stage 2 Hypertension"
  else if systolic ≥ norms.bp.stage_1.1 ∨ diastolic ≥ norms.bp.stage_1.2 then
    "Stage 1 Hypertension"
  else if systolic ≥ norms.bp.elevated.1 ∧ diastolic < norms.bp.elevated.2 then
    "Elevated blood pressure"
  else "Normal"

/-- Modelled from the spec wording of §4.4: the fasting glucose ladder
over the norms table. -/
def fasting_ladder_spec (g : ℚ) (norms : Norms) : String :=
  if g < norms.glucose.severe_hypoglycemia then "Severe hypoglycemia"
  else if g < norms.glucose.hypoglycemia then "Low (hypoglycemia)"
  else if g ≤ norms.glucose.normal_fasting_upper then "Normal fasting"
  else if g < norms.glucose.diabetes_fasting then "Impaired fasting (prediabetes)"
  else "Diabetes-range fasting"

/-- Modelled from the spec wording of §4.4: the non-fasting ladder with
fixed literal cutoffs 54, 70, 140, 200, independent of the norms table. -/
def non_fasting_ladder_spec (g : ℚ) : String :=
  if g < 54 then "Severe hypoglycemia"
  else if g < 70 then "Low (hypoglycemia)"
  else if g < 140 then "Normal (post-meal)"
  else if g < 200 then "High (post-meal) — consider fasting test"
  else "Very high (post-meal) — diabetes likely"

/-- Modelled from the spec wording of §4.5: the hemoglobin check as an
internal first-match cascade producing at most one flag. -/
def hb_flag_spec (hemoglobin : ℚ) : Option String :=
  if hemoglobin < 8 then some "Severely low hemoglobin — urgent evaluation needed"
  else if hemoglobin < 12 then some "Low hemoglobin — possible anemia; consider iron studies"
  else none

/-- Modelled from the spec wording of §4.5: the white-cell check as an
internal first-match cascade producing at most one flag. -/
def wbc_flag_spec (wbc : ℚ) : Option String :=
  if wbc < 2 then some "Severely low WBC — urgent evaluation needed"
  else if wbc < 4 then some "Low WBC — infection risk"
  else if wbc > 11 then some "Elevated WBC — possible infection/inflammation; correlate clinically"
  else none

/-- Modelled from the spec wording of §4.5: the platelet check as an
internal first-match cascade producing at most one flag. -/
def platelet_flag_spec (platelets : ℚ) : Option String :=
  if platelets < 50 then some "Very low platelets — urgent evaluation"
  else if platelets < 150 then some "Low platelets — bleeding risk"
  else if platelets > 450 then some "High platelets — reactive thrombocytosis or myeloproliferative process"
  else none

/-- Severity rank of a BMI category label, in the order the bands appear
as BMI increases. -/
def bmiSeverity (category : String) : ℕ :=
  if category = "Underweight" then 0
  else if category = "Normal weight" then 1
  else if category = "Overweight" then 2
  else 3

/-!
Helper lemmas shared by the claim theorems.
-/

/-- The keyword-scan loop of the emergency block computes the disjunction
of the keyword test over the flags and appends exactly the triggering
flags, in order. -/
lemma emergencyScan_eq (fs : List String) (b : Bool) (rs : List String) :
    emergencyScan fs b rs = (b || fs.any flagTriggers, rs ++ fs.filter flagTriggers) := by
  induction fs generalizing b rs with
  | nil => simp [emergencyScan]
  | cons f rest ih =>
    by_cases h : flagTriggers f
    · simp [emergencyScan, h, ih, List.filter_cons, List.append_assoc]
    · simp [emergencyScan, h, ih, List.filter_cons]

/-- A filtered list is empty exactly when no element satisfies the
predicate. -/
lemma filter_nil_iff_any_false (p : String → Bool) (l : List String) :
    l.filter p = [] ↔ l.any p = false := by
  induction l with
  | nil => simp
  | cons f rest ih => by_cases h : p f <;> simp [h, ih, List.filter_cons]

/-- No line produced by `interpret_lipids` contains one of the emergency
keywords as a lowercase substring. -/
lemma interpret_lipids_no_keyword (total ldl hdl trig : ℚ) (norms : Norms) :
    (interpret_lipids total ldl hdl trig norms).any flagTriggers = false := by
  unfold interpret_lipids
  split_ifs <;> simp [List.any_append] <;> decide

/-!
Claim theorems.
-/

/-- C1: `classify_bp` evaluates its five rules as an ordered first-match
cascade — crisis, Stage 2, Stage 1 by the OR form, then the asymmetric
AND-form Elevated rule, then Normal — and with the default norms the pair
(systolic 125, diastolic 75) classifies as "Elevated blood pressure". -/
theorem classify_bp_first_match_cascade :
    (∀ (systolic diastolic : ℤ) (norms : Norms),
      classify_bp systolic diastolic norms =
        classify_bp_spec systolic diastolic norms) ∧
    classify_bp 125 75 DEFAULT_NORMS = "Elevated blood pressure" :=
  ⟨fun _ _ _ => rfl, by decide⟩

/-- C2: `interpret_glucose` uses the fasting ladder exactly when the
trimmed, lowercased context starts with "fast" and otherwise the fixed
literal cutoffs 54, 70, 140, 200 independent of the norms table;
(glucose 100, context "Fasting") gives "Impaired fasting (prediabetes)"
under the default norms, and (glucose 250, context "Random") gives
"Very high (post-meal) — diabetes likely" under every norms table. -/
theorem interpret_glucose_context_split :
    (∀ (g : ℚ) (context : String) (norms : Norms),
      interpret_glucose g context norms =
        if "fast".toList.isPrefixOf (pyLower (pyStrip context.toList)) then
          fasting_ladder_spec g norms
        else non_fasting_ladder_spec g) ∧
    interpret_glucose 100 "Fasting" DEFAULT_NORMS = "Impaired fasting (prediabetes)" ∧
    (∀ norms : Norms, interpret_glucose 250 "Random" norms =
      "Very high (post-meal) — diabetes likely") := by
  refine ⟨fun g context norms => rfl, by decide, fun norms => ?_⟩
  have h : "fast".toList.isPrefixOf (pyLower (pyStrip "Random".toList)) = false := by decide
  simp only [interpret_glucose, h]
  norm_num

/-- C3: for every measurement set and norms table, the emergency
determination's reasons list is empty if and only if `needs_emergency` is
false. -/
theorem emergency_reasons_iff_needs (m : MeasurementSet) (n : Norms) :
    (emergencyOf m n).2 = [] ↔ (emergencyOf m n).1 = false := by
  unfold emergencyOf emergencyDetermination
  rw [emergencyScan_eq]
  split_ifs <;> simp [filter_nil_iff_any_false]

/-- Witness for C3 at a concrete measurement set and the default norms. -/
theorem emergency_reasons_iff_needs_witness :
    (emergencyOf ⟨30, "Male", 175, 70, 120, 80, 90, "Fasting", 14, 6, 250, 180, 100, 50, 120⟩
        DEFAULT_NORMS).2 = [] ↔
      (emergencyOf ⟨30, "Male", 175, 70, 120, 80, 90, "Fasting", 14, 6, 250, 180, 100, 50, 120⟩
        DEFAULT_NORMS).1 = false :=
  emergency_reasons_iff_needs
    ⟨30, "Male", 175, 70, 120, 80, 90, "Fasting", 14, 6, 250, 180, 100, 50, 120⟩ DEFAULT_NORMS

/-- C4: whenever the BP classification contains "Hypertensive crisis",
`recommend_exercise_advanced` returns exactly the single urgent-referral
line, whatever the age, BMI category and glucose interpretation. -/
theorem exercise_crisis_short_circuit (age : ℤ)
    (bmi_cat bp_class glucose_interp : String)
    (h : strContains bp_class "Hypertensive crisis" = true) :
    recommend_exercise_advanced age bmi_cat bp_class glucose_interp =
      ["🚨 Emergency BP: get urgent medical review before starting/exercising."] := by
  simp [recommend_exercise_advanced, h]

/-- Witness for C4 at a concrete crisis input. -/
theorem exercise_crisis_short_circuit_witness :
    recommend_exercise_advanced 30 "Obesity" "Hypertensive crisis" "Diabetes-range fasting" =
      ["🚨 Emergency BP: get urgent medical review before starting/exercising."] :=
  exercise_crisis_short_circuit 30 "Obesity" "Hypertensive crisis"
    "Diabetes-range fasting" (by decide)

/-- C5: `bmi_category` always yields one of the four labels, its severity
rank is monotonically non-decreasing in the BMI value, and under the
default norms the upper band boundaries are inclusive: BMI 24.9 is
"Normal weight" while BMI 24.91 is "Overweight". -/
theorem bmi_category_total_monotone (norms : Norms) (b1 b2 : ℚ)
    (h0 : 0 ≤ b1) (h12 : b1 ≤ b2) :
    (bmi_category b1 norms = "Underweight" ∨ bmi_category b1 norms = "Normal weight" ∨
     bmi_category b1 norms = "Overweight" ∨ bmi_category b1 norms = "Obesity") ∧
    bmiSeverity (bmi_category b1 norms) ≤ bmiSeverity (bmi_category b2 norms) ∧
    bmi_category 24.9 DEFAULT_NORMS = "Normal weight" ∧
    bmi_category 24.91 DEFAULT_NORMS = "Overweight" := by
  refine ⟨?_, ?_, ?_, ?_⟩
  · unfold bmi_category; split_ifs <;> simp
  · unfold bmi_category; split_ifs <;> first | decide | (exfalso; linarith)
  · norm_num [bmi_category, DEFAULT_NORMS]
  · norm_num [bmi_category, DEFAULT_NORMS]

/-- Witness for C5 at BMI values 20 ≤ 25 and the default norms. -/
theorem bmi_category_total_monotone_witness :
    (bmi_category 20 DEFAULT_NORMS = "Underweight" ∨
     bmi_category 20 DEFAULT_NORMS = "Normal weight" ∨
     bmi_category 20 DEFAULT_NORMS = "Overweight" ∨
     bmi_category 20 DEFAULT_NORMS = "Obesity") ∧
    bmiSeverity (bmi_category 20 DEFAULT_NORMS) ≤ bmiSeverity (bmi_category 25 DEFAULT_NORMS) ∧
    bmi_category 24.9 DEFAULT_NORMS = "Normal weight" ∧
    bmi_category 24.91 DEFAULT_NORMS = "Overweight" :=
  bmi_category_total_monotone DEFAULT_NORMS 20 25 (by decide) (by decide)

/-- C6: every failing fetch outcome — network failure, timeout, non-200
status, malformed payload, or a payload missing the "bmi" or "bp" key —
yields the embedded default table unchanged, and a remote payload is
returned in place of the default only when it carries both keys; the
embedding is a total function, reflecting that the `try`/`except` absorbs
every failure rather than raising to the caller. -/
theorem fetch_medical_norms_fallback :
    fetch_medical_norms .netFailure = DEFAULT_NORMS_json ∧
    fetch_medical_norms .timeout = DEFAULT_NORMS_json ∧
    (∀ (status : ℕ) (body : Option JVal), status ≠ 200 →
      fetch_medical_norms (.resp status body) = DEFAULT_NORMS_json) ∧
    (∀ status : ℕ, fetch_medical_norms (.resp status none) = DEFAULT_NORMS_json) ∧
    (∀ data : JVal, (hasKey data "bmi" && hasKey data "bp") = false →
      fetch_medical_norms (.resp 200 (some data)) = DEFAULT_NORMS_json) ∧
    (∀ data : JVal, (hasKey data "bmi" && hasKey data "bp") = true →
      fetch_medical_norms (.resp 200 (some data)) = data) ∧
    (∀ outcome : FetchOutcome,
      fetch_medical_norms outcome = DEFAULT_NORMS_json ∨
      ∃ data : JVal, outcome = .resp 200 (some data) ∧
        hasKey data "bmi" = true ∧ hasKey data "bp" = true ∧
        fetch_medical_norms outcome = data) := by
  refine ⟨rfl, rfl, ?_, ?_, ?_, ?_, ?_⟩
  · intro status body h
    simp [fetch_medical_norms, h]
  · intro status
    by_cases h : status = 200 <;> simp [fetch_medical_norms, h]
  · intro data h
    simp [fetch_medical_norms, h]
  · intro data h
    simp [fetch_medical_norms, h]
  · intro outcome
    match outcome with
    | .netFailure => exact Or.inl rfl
    | .timeout => exact Or.inl rfl
    | .resp status body =>
      by_cases hs : status = 200
      · subst hs
        match body with
        | none => exact Or.inl rfl
        | some data =>
          by_cases hk : (hasKey data "bmi" && hasKey data "bp") = true
          · refine Or.inr ⟨data, rfl, ?_, ?_, ?_⟩
            · exact (Bool.and_eq_true _ _).mp hk |>.1
            · exact (Bool.and_eq_true _ _).mp hk |>.2
            · simp [fetch_medical_norms, hk]
          · left; simp [fetch_medical_norms, Bool.eq_false_iff.mpr hk]
      · left; simp [fetch_medical_norms, hs]

/-- Witness for C6: a non-200 response, a 200 response missing the
required keys, and a 200 response with both keys, at concrete payloads. -/
theorem fetch_medical_norms_fallback_witness :
    fetch_medical_norms (.resp 404 none) = DEFAULT_NORMS_json ∧
    fetch_medical_norms (.resp 200 (some (.obj [("glucose", .null)]))) = DEFAULT_NORMS_json ∧
    fetch_medical_norms (.resp 200 (some (.obj [("bmi", .null), ("bp", .null)]))) =
      .obj [("bmi", .null), ("bp", .null)] :=
  ⟨fetch_medical_norms_fallback.2.2.1 404 none (by decide),
   fetch_medical_norms_fallback.2.2.2.2.1 (.obj [("glucose", .null)]) (by decide),
   fetch_medical_norms_fallback.2.2.2.2.2.1 (.obj [("bmi", .null), ("bp", .null)]) (by decide)⟩

/-- C7: `calculate_bmi` returns weight over squared height-in-metres when
the height is positive and the sentinel 0 when the height is non-positive;
being a total function, it raises no error on any input. -/
theorem calculate_bmi_guarded (weight_kg height_cm : ℚ) :
    (0 < height_cm → calculate_bmi weight_kg height_cm =
      weight_kg / ((height_cm / 100) ^ 2)) ∧
    (height_cm ≤ 0 → calculate_bmi weight_kg height_cm = 0) := by
  constructor
  · intro h; rw [calculate_bmi, if_neg (by linarith)]
  · intro h; rw [calculate_bmi, if_pos h]

/-- Witness for C7 at a positive and a non-positive height. -/
theorem calculate_bmi_guarded_witness :
    calculate_bmi 70 175 = 70 / (((175 : ℚ) / 100) ^ 2) ∧ calculate_bmi 70 0 = 0 :=
  ⟨(calculate_bmi_guarded 70 175).1 (by decide), (calculate_bmi_guarded 70 0).2 (by decide)⟩

/-- C8: `cbc_flags` is the ordered concatenation of three per-measurement
first-match cascades — hemoglobin, then WBC, then platelets — each
contributing at most one flag, so the result has between 0 and 3 entries;
at hemoglobin 7.5, wbc 6, platelets 500 it is exactly the severe-hemoglobin
flag followed by the high-platelets flag. -/
theorem cbc_flags_structure :
    (∀ hemoglobin wbc platelets : ℚ,
      cbc_flags hemoglobin wbc platelets =
        (hb_flag_spec hemoglobin).toList ++ (wbc_flag_spec wbc).toList ++
          (platelet_flag_spec platelets).toList) ∧
    (∀ hemoglobin wbc platelets : ℚ,
      (cbc_flags hemoglobin wbc platelets).length ≤ 3) ∧
    cbc_flags 7.5 6 500 =
      ["Severely low hemoglobin — urgent evaluation needed",
       "High platelets — reactive thrombocytosis or myeloproliferative process"] := by
  refine ⟨?_, ?_, ?_⟩
  · intro h w p
    unfold cbc_flags hb_flag_spec wbc_flag_spec platelet_flag_spec
    split_ifs <;> rfl
  · intro h w p
    unfold cbc_flags
    split_ifs <;> simp
  · norm_num [cbc_flags]

/-- C9: no string produced by `interpret_lipids` contains one of the
emergency keywords ("severe", "urgent", "very low", "very high") as a
lowercase substring, so appending the lipid flags to the scanned flag list
changes neither `needs_emergency` nor the reasons of the emergency
determination — only CBC flags can trigger the scan. -/
theorem lipid_flags_never_emergency :
    (∀ (total ldl hdl trig : ℚ) (norms : Norms),
      (interpret_lipids total ldl hdl trig norms).any flagTriggers = false) ∧
    (∀ (bp_class glucose_interp : String) (cbc : List String)
       (total ldl hdl trig : ℚ) (norms : Norms),
      emergencyDetermination bp_class glucose_interp
          (cbc ++ interpret_lipids total ldl hdl trig norms) =
        emergencyDetermination bp_class glucose_interp cbc) := by
  refine ⟨interpret_lipids_no_keyword, ?_⟩
  intro bp_class glucose_interp cbc total ldl hdl trig norms
  have hany := interpret_lipids_no_keyword total ldl hdl trig norms
  have hfil : (interpret_lipids total ldl hdl trig norms).filter flagTriggers = [] :=
    (filter_nil_iff_any_false _ _).mpr hany
  unfold emergencyDetermination
  rw [emergencyScan_eq, emergencyScan_eq]
  simp [List.any_append, List.filter_append, hany, hfil]

/-- C10: with the embedded default norms, `classify_bp` returns "Normal"
exactly when systolic < 120 and diastolic < 80 — despite the AND in the
Elevated rule, no reading falls through a gap. -/
theorem classify_bp_normal_iff_default (systolic diastolic : ℤ) :
    classify_bp systolic diastolic DEFAULT_NORMS = "Normal" ↔
      systolic < 120 ∧ diastolic < 80 := by
  simp only [classify_bp, DEFAULT_NORMS]
  split_ifs <;> first
    | exact iff_of_false (by decide) (by omega)
    | exact iff_of_true rfl (by omega)

/-- Witness for C10 at the concrete reading 110/70. -/
theorem classify_bp_normal_iff_default_witness :
    classify_bp 110 70 DEFAULT_NORMS = "Normal" ↔ (110 : ℤ) < 120 ∧ (70 : ℤ) < 80 :=
  classify_bp_normal_iff_default 110 70
